import Mathlib

/-!
Verification development for the FOSSEE equipment-parameter ML pipeline
(`backend/api/ml_models.py`, with its callers in `backend/api/views.py`).

The pipeline operates on tabular equipment records (type label plus three
numeric columns: Flowrate, Pressure, Temperature).  We embed the data
cleaning step, the train/test split size semantics, the best-of-three
regression model selection, the classification stratification decision,
prediction with unseen-label fallback, and bundle persistence.

Numeric values are modelled as rationals (`ℚ`); a possibly-missing cell is
`Option ℚ`.  The scipy z-score semantics are embedded exactly: with
population mean μ and population variance v over a fully-populated column,
a row value x survives the filter iff the standard deviation is nonzero and
`(x - μ)² < 9·v` (equivalently `|z| < 3`); if the column contains a missing
value (NaN after an all-missing median fill) or has zero variance, every
z-score of that column is NaN and NaN comparisons are false, so no row of
the frame survives.
-/

namespace EquipmentML

/-- One raw input row (`EquipmentRecord` in the spec): the categorical
equipment type plus the three numeric columns, each possibly missing. -/
structure RawRow where
  eqType : String
  flowrate : Option ℚ
  pressure : Option ℚ
  temperature : Option ℚ
deriving DecidableEq, Repr

/-- pandas `Series.median` over the non-missing values: the middle element
of the sorted values, or the mean of the two middle elements for an even
count; `none` on an empty column (pandas NaN). -/
def median (l : List ℚ) : Option ℚ :=
  let s := l.insertionSort (· ≤ ·)
  let n := l.length
  if n = 0 then none
  else if n % 2 = 1 then s[n / 2]?
  else match s[n / 2 - 1]?, s[n / 2]? with
    | some a, some b => some ((a + b) / 2)
    | _, _ => none

/-- `Series.fillna(median)` at one cell: a present value is kept, a missing
value becomes the column median (and stays missing when the median itself
is missing, i.e. the column was entirely null). -/
def fillVal (m : Option ℚ) (v : Option ℚ) : Option ℚ :=
  match v with
  | some x => some x
  | none => m

/-- The median-imputation pass of `clean_data` (ml_models.py lines 64-68):
each numeric column is filled independently with its own median. -/
def impute (df : List RawRow) : List RawRow :=
  let mf := median (df.filterMap (·.flowrate))
  let mp := median (df.filterMap (·.pressure))
  let mt := median (df.filterMap (·.temperature))
  df.map (fun r =>
    { eqType := r.eqType
      flowrate := fillVal mf r.flowrate
      pressure := fillVal mp r.pressure
      temperature := fillVal mt r.temperature })

/-- `some`-extraction of a whole column: `some xs` when every cell is
present, `none` as soon as one cell is missing (a NaN poisons the scipy
column statistics). -/
def allSome : List (Option ℚ) → Option (List ℚ)
  | [] => some []
  | none :: _ => none
  | some x :: t => (allSome t).map (x :: ·)

/-- Population mean of a column (scipy `zscore` default `ddof=0`). -/
def listMean (xs : List ℚ) : ℚ := xs.sum / xs.length

/-- Population variance of a column (scipy `zscore` default `ddof=0`). -/
def listVar (xs : List ℚ) : ℚ :=
  (xs.map (fun x => (x - listMean xs) ^ 2)).sum / xs.length

/-- Column statistics used by the z-score filter: `none` when the column
still contains a missing value, else the pair (mean, variance). -/
def colStats (col : List (Option ℚ)) : Option (ℚ × ℚ) :=
  match allSome col with
  | none => none
  | some xs => some (listMean xs, listVar xs)

/-- Whether one cell survives the z-score filter of its column
(`np.abs(stats.zscore(..)) < 3`): requires a fully-populated column with
nonzero standard deviation, and then `|x - μ| < 3·σ`, stated without a
square root as `(x - μ)² < 9·v`.  A NaN z-score (missing data or zero
variance) compares false and the row is dropped. -/
def rowKeep (s : Option (ℚ × ℚ)) (v : Option ℚ) : Bool :=
  match s, v with
  | some (μ, va), some x => decide (0 < va ∧ (x - μ) ^ 2 < 9 * va)
  | _, _ => false

/-- `EquipmentMLModel.clean_data` (ml_models.py lines 52-74): median-impute
each numeric column, then keep exactly the rows whose three cells all pass
the z-score filter.  There is no row-count guard: the filter runs on every
input. -/
def clean_data (df : List RawRow) : List RawRow :=
  let d := impute df
  let sf := colStats (d.map (·.flowrate))
  let sp := colStats (d.map (·.pressure))
  let st := colStats (d.map (·.temperature))
  d.filter (fun r =>
    rowKeep sf r.flowrate && rowKeep sp r.pressure && rowKeep st r.temperature)

/-- Whether a dataset has no missing numeric cell. -/
def no_missing (df : List RawRow) : Bool :=
  df.all (fun r => r.flowrate.isSome && r.pressure.isSome && r.temperature.isSome)

/-- Whether a column is fully populated with strictly positive variance —
exactly the situation in which its z-scores are finite numbers. -/
def col_ok (col : List (Option ℚ)) : Bool :=
  match colStats col with
  | some s => decide (0 < s.2)
  | none => false

/-- Whether one cell's absolute z-score strictly exceeds 3 (the spec's
notion of an outlier).  A NaN z-score (missing data or zero variance)
compares false, exactly as in numpy. -/
def z_gt_3 (s : Option (ℚ × ℚ)) (v : Option ℚ) : Bool :=
  match s, v with
  | some (μ, va), some x => decide (0 < va ∧ 9 * va < (x - μ) ^ 2)
  | _, _ => false

/-- Whether some row of the dataset has a cell whose absolute z-score
(with respect to the dataset's own column statistics) exceeds 3. -/
def some_z_exceeds (df : List RawRow) : Bool :=
  df.any (fun r =>
    z_gt_3 (colStats (df.map (·.flowrate))) r.flowrate ||
    z_gt_3 (colStats (df.map (·.pressure))) r.pressure ||
    z_gt_3 (colStats (df.map (·.temperature))) r.temperature)

/-- Whether every row of the dataset passes the z-score filter of every
column — i.e. every column has positive variance and every cell sits
strictly inside the 3-standard-deviation band. -/
def no_outliers (df : List RawRow) : Bool :=
  df.all (fun r =>
    rowKeep (colStats (df.map (·.flowrate))) r.flowrate &&
    rowKeep (colStats (df.map (·.pressure))) r.pressure &&
    rowKeep (colStats (df.map (·.temperature))) r.temperature)

/-! ### Train/test split size semantics

`sklearn.model_selection.train_test_split(..., test_size=0.2)` takes
`n_test = ceil(0.2 * n)` and `n_train = n - n_test`, and raises a
`ValueError` before doing anything else when either part would be empty.
-/

/-- Number of test samples of an 80/20 split of `n` rows:
`ceil(n / 5)` as a natural number. -/
def test_count (n : Nat) : Nat := (n + 4) / 5

/-- Number of training samples of an 80/20 split of `n` rows. -/
def train_count (n : Nat) : Nat := n - test_count n

/-- `train_test_split` size validation and outcome: errors when the
resulting train or test set would be empty (as sklearn does, before any
data is touched), otherwise returns `(n_train, n_test)`. -/
def train_test_split_sizes (n : Nat) : Except String (Nat × Nat) :=
  let nte := test_count n
  let ntr := n - nte
  if nte = 0 ∨ ntr = 0 then
    .error "ValueError: the resulting train set will be empty"
  else
    .ok (ntr, nte)

/-! ### Regression training: split sizes and best-of-three selection

`train_regression_models` (ml_models.py lines 104-208) cleans the data,
splits 80/20, fits three candidates per target and keeps the one with the
strictly largest R² seen so far (`if r2 > best_score`), starting from
`-np.inf`.  The fitted estimators and their R² values come from sklearn
and are abstracted: the selection loop is embedded over an arbitrary list
of (candidate name, R² score) pairs, and the recorded metrics keep the
sample counts of lines 201-203.
-/

/-- One iteration of the selection loop (lines 149-151): the running best
is replaced only when the new score is strictly greater; the initial
`-np.inf` best is `none`, which every finite score beats. -/
def stepBest (best : Option (String × ℚ)) (c : String × ℚ) : Option (String × ℚ) :=
  match best with
  | none => some c
  | some b => if b.2 < c.2 then some c else some b

/-- The whole selection loop over the candidate list, in iteration order. -/
def selectBest (cs : List (String × ℚ)) : Option (String × ℚ) :=
  cs.foldl stepBest none

/-- The candidate iteration order of `models_to_test` (lines 133-137), with
the per-candidate test-split R² scores abstract. -/
def regression_candidates (r2_rf r2_gb r2_lr : ℚ) : List (String × ℚ) :=
  [("Random Forest", r2_rf), ("Gradient Boosting", r2_gb), ("Linear Regression", r2_lr)]

/-- The sample counts recorded in the regression metrics dict
(lines 201-203). -/
structure RegMetricsCounts where
  training_samples : Nat
  test_samples : Nat
  total_samples : Nat
deriving DecidableEq, Repr

/-- Size/abort behaviour of `train_regression_models` (lines 104-208):
clean, then split 80/20; a degenerate split aborts the call before any
model is fit (the sklearn `ValueError` surfaces from line 118).  When the
test split holds a single sample, sklearn's `r2_score` is undefined and
returns NaN for all three candidates, `nan > -np.inf` is false, so no
model is ever assigned to `self.model_flowrate` and line 178 raises
`AttributeError` (on `None.predict`) before the metrics dict of lines
182-205 is built — this happens exactly when `n_test = ceil(n/5) < 2`,
i.e. for cleaned sizes 2 to 5.  Only with at least 2 test samples is every
R² finite, a model retained, and the metrics record the split sizes of
lines 201-203.  The fitted estimators themselves are abstracted away. -/
def train_regression_models (df : List RawRow) : Except String RegMetricsCounts :=
  let n := (clean_data df).length
  match train_test_split_sizes n with
  | .error e => .error e
  | .ok sizes =>
    if sizes.2 < 2 then
      .error "AttributeError: NoneType object has no attribute predict"
    else
      .ok ⟨sizes.1, sizes.2, n⟩

/-! ### Classification training: encoder and stratification decision -/

/-- `LabelEncoder.fit`: `classes_` is the sorted list of distinct labels. -/
def label_fit (labels : List String) : List String :=
  labels.dedup.insertionSort (· ≤ ·)

/-- `LabelEncoder.transform` of one seen label: its index in `classes_`.
(`List.findIdx` returns the first index satisfying the predicate.) -/
def label_transform (classes : List String) (l : String) : Nat :=
  classes.findIdx (· == l)

/-- The stratification guard of `train_classification_model`
(lines 227-229): every encoded class must occur at least twice. -/
def can_stratify (y : List Nat) : Bool :=
  y.all (fun c => 2 ≤ y.count c)

/-- Outcome of `train_classification_model` relevant to the claims:
whether the split was stratified, plus the split sizes and the encoder
classes.  The fitted random-forest classifier is abstracted away. -/
structure ClsResult where
  stratified : Bool
  training_samples : Nat
  test_samples : Nat
  classes : List String
deriving DecidableEq, Repr

/-- `train_classification_model` (lines 210-269): clean, re-fit the label
encoder, decide stratification by class counts, split 80/20 (degenerate
sizes raise, as in sklearn), and additionally a stratified split raises
when the test or train part is smaller than the number of classes.  The
classifier fit itself always succeeds once a split exists and is
abstracted away. -/
def train_classification_model (df : List RawRow) : Except String ClsResult :=
  let labels := (clean_data df).map (·.eqType)
  let classes := label_fit labels
  let y := labels.map (label_transform classes)
  let strat := can_stratify y
  match train_test_split_sizes labels.length with
  | .error e => .error e
  | .ok sizes =>
    if strat = true ∧ (sizes.2 < classes.length ∨ sizes.1 < classes.length) then
      .error "ValueError: test_size smaller than the number of classes"
    else
      .ok ⟨strat, sizes.1, sizes.2, classes⟩

/-! ### The model bundle, prediction, and persistence

Fitted sklearn estimators are abstracted as functions: a regressor maps
the single scaled feature to a prediction, the classifier maps the three
scaled features to a class code.
-/

/-- `sklearn.preprocessing.StandardScaler` restricted to one feature:
`transform x = (x - mean) / scale`.  A freshly constructed (unfit) scaler
is modelled with mean 0 and scale 1. -/
structure StandardScaler where
  mean : ℚ
  scale : ℚ
deriving DecidableEq, Repr

/-- The scaler's `transform` on a single value. -/
def StandardScaler.transform (s : StandardScaler) (x : ℚ) : ℚ :=
  (x - s.mean) / s.scale

/-- The in-memory state of `EquipmentMLModel` (ml_models.py lines 30-49)
after construction or training: three regressors, an optional classifier,
the label encoder classes, the two scalers, feature names, the training
history (an opaque association list of metric names to values) and the
trained flag. -/
structure ModelBundle where
  model_flowrate : ℚ → ℚ
  model_pressure : ℚ → ℚ
  model_temperature : ℚ → ℚ
  classifier_model : Option (ℚ → ℚ → ℚ → Nat)
  label_encoder : List String
  scaler_regression : StandardScaler
  scaler_classification : StandardScaler
  feature_names : List String
  training_history : List (String × ℚ)
  is_trained : Bool

/-- The result record of `predict` (lines 323-328). -/
structure Prediction where
  equipment_type : String
  predicted_flowrate : ℚ
  predicted_pressure : ℚ
  predicted_temperature : ℚ

/-- Python `round` to the nearest integer, ties to even (banker's
rounding), on a rational. -/
def round_half_even (q : ℚ) : ℤ :=
  let f := ⌊q⌋
  let r := q - f
  if r < 1 / 2 then f
  else if 1 / 2 < r then f + 1
  else if f % 2 = 0 then f else f + 1

/-- Python `round(x, 2)`. -/
def round2 (q : ℚ) : ℚ := (round_half_even (q * 100) : ℚ) / 100

/-- `EquipmentMLModel.predict` (lines 296-328): requires the trained flag;
encodes the equipment type via the stored encoder, falling back to code
`0` when the label was not seen during training (the `except ValueError`
branch at lines 312-314); scales the code with the regression scaler, runs
the three regressors and rounds each output to 2 decimal places. -/
def predict (b : ModelBundle) (equipment_type : String) : Except String Prediction :=
  if b.is_trained then
    let type_encoded : ℚ :=
      match b.label_encoder.findIdx? (· == equipment_type) with
      | some i => (i : ℚ)
      | none => 0
    let x := b.scaler_regression.transform type_encoded
    .ok { equipment_type := equipment_type
          predicted_flowrate := round2 (b.model_flowrate x)
          predicted_pressure := round2 (b.model_pressure x)
          predicted_temperature := round2 (b.model_temperature x) }
  else
    .error "Model not trained yet"

/-- The pickled blob written by `save_model` (lines 372-383): a dictionary
with one key per bundle field.  A field can be absent when the blob was
produced by an older format, hence every field is optional here. -/
structure BlobData where
  model_flowrate : Option (ℚ → ℚ)
  model_pressure : Option (ℚ → ℚ)
  model_temperature : Option (ℚ → ℚ)
  classifier_model : Option (ℚ → ℚ → ℚ → Nat)
  scaler_regression : Option StandardScaler
  scaler_classification : Option StandardScaler
  label_encoder : Option (List String)
  feature_names : Option (List String)
  training_history : Option (List (String × ℚ))
  is_trained : Option Bool

/-- The blob `save_model` builds from a bundle: every field present. -/
def encode_bundle (b : ModelBundle) : BlobData :=
  { model_flowrate := some b.model_flowrate
    model_pressure := some b.model_pressure
    model_temperature := some b.model_temperature
    classifier_model := b.classifier_model
    scaler_regression := some b.scaler_regression
    scaler_classification := some b.scaler_classification
    label_encoder := some b.label_encoder
    feature_names := some b.feature_names
    training_history := some b.training_history
    is_trained := some b.is_trained }

/-- A filesystem abstraction: a path is its list of components, the
filesystem is the set of existing directories plus the stored blobs. -/
structure FS where
  dirs : List (List String)
  files : List (List String × BlobData)

/-- Whether a directory exists; the working directory (empty path) always
does. -/
def FS.hasDir (fs : FS) (d : List String) : Bool :=
  d.isEmpty || fs.dirs.contains d

/-- `EquipmentMLModel.save_model` (lines 367-386): refuses to persist an
untrained bundle (lines 369-370), then `open(filepath, 'wb')` — which
fails when the parent directory does not exist (`save_model` itself never
creates directories; the callers in views.py run `os.makedirs` first) —
and writes the whole bundle as one blob. -/
def save_model (b : ModelBundle) (fs : FS) (filepath : List String) : Except String FS :=
  if b.is_trained = false then
    .error "Model not trained yet"
  else if fs.hasDir filepath.dropLast = false then
    .error "FileNotFoundError: no such directory"
  else
    .ok { dirs := fs.dirs
          files := (filepath, encode_bundle b) :: fs.files.filter (fun e => e.1 ≠ filepath) }

/-- `EquipmentMLModel.load_model` (lines 388-405): a missing path is a
`FileNotFoundError` (lines 390-391); otherwise the blob's
`model_flowrate`, `model_pressure`, `model_temperature`, `label_encoder`,
`feature_names` and `is_trained` entries are accessed with `[]` and their
absence raises a `KeyError`, while `classifier_model`,
`scaler_regression`, `scaler_classification` and `training_history` use
`.get` with a default (lines 396-405). -/
def load_model (fs : FS) (filepath : List String) : Except String ModelBundle :=
  match fs.files.lookup filepath with
  | none => .error "FileNotFoundError: model file not found"
  | some blob =>
    match blob.model_flowrate, blob.model_pressure, blob.model_temperature,
          blob.label_encoder, blob.feature_names, blob.is_trained with
    | some mf, some mp, some mt, some le, some fn, some it =>
      .ok { model_flowrate := mf
            model_pressure := mp
            model_temperature := mt
            classifier_model := blob.classifier_model
            label_encoder := le
            scaler_regression := blob.scaler_regression.getD ⟨0, 1⟩
            scaler_classification := blob.scaler_classification.getD ⟨0, 1⟩
            feature_names := fn
            training_history := blob.training_history.getD []
            is_trained := it }
    | _, _, _, _, _, _ => .error "KeyError: required bundle field missing"

/-! ## Concrete datasets used as witnesses and counterexamples -/

/-- Two identical rows: every numeric column is constant, so every z-score
is NaN (0/0) and the filter drops both rows. -/
def dfConstPair : List RawRow :=
  [⟨"Pump", some 1, some 2, some 3⟩, ⟨"Pump", some 1, some 2, some 3⟩]

/-- Three fully-populated rows with distinct values in every column. -/
def dfSmall3 : List RawRow :=
  [⟨"Pump", some 1, some 10, some 100⟩,
   ⟨"Pump", some 2, some 20, some 200⟩,
   ⟨"Valve", some 3, some 30, some 300⟩]

/-- Two rows with a constant Flowrate column but distinct Pressure and
Temperature values: no cell is missing and no absolute z-score exceeds 3
(the Flowrate z-scores are NaN, which compares false), yet the NaN mask
drops both rows. -/
def dfConstCol : List RawRow :=
  [⟨"Pump", some 5, some 1, some 2⟩, ⟨"Valve", some 5, some 3, some 4⟩]

/-- Twelve rows engineered so that the first row's Flowrate z-score is
exactly 3 (deviations 3, -1, -1, -1 and eight zeros give mean 0 and
population variance 1) while every other z-score is strictly inside the
band: no absolute z-score exceeds 3, yet `clean_data` drops the first row
because the filter keeps only `|z| < 3`. -/
def dfZ3 : List RawRow :=
  [⟨"A", some 3, some 1, some 1⟩, ⟨"B", some (-1), some 2, some 2⟩,
   ⟨"C", some (-1), some 3, some 3⟩, ⟨"D", some (-1), some 4, some 4⟩,
   ⟨"E", some 0, some 5, some 5⟩, ⟨"F", some 0, some 6, some 6⟩,
   ⟨"G", some 0, some 7, some 7⟩, ⟨"H", some 0, some 8, some 8⟩,
   ⟨"I", some 0, some 9, some 9⟩, ⟨"J", some 0, some 10, some 10⟩,
   ⟨"K", some 0, some 11, some 11⟩, ⟨"L", some 0, some 12, some 12⟩]

/-! ## Bundle and filesystem fixtures -/

/-- A concrete trained bundle over types `{"Pump", "Valve"}`. -/
def bundle0 : ModelBundle :=
  { model_flowrate := fun _ => 100
    model_pressure := fun x => x + 5
    model_temperature := fun x => 2 * x
    classifier_model := none
    label_encoder := ["Pump", "Valve"]
    scaler_regression := { mean := 1 / 2, scale := 1 / 2 }
    scaler_classification := { mean := 0, scale := 1 }
    feature_names := ["Type_Encoded"]
    training_history := [("r2_score", 9 / 10)]
    is_trained := true }

/-- `bundle0` with the trained flag cleared. -/
def bundleUntrained : ModelBundle :=
  { bundle0 with is_trained := false }

/-- A filesystem with no directories and no files. -/
def fsEmpty : FS := { dirs := [], files := [] }

/-- A filesystem in which only the `ml_models` directory exists. -/
def fsWithDir : FS := { dirs := [["ml_models"]], files := [] }

/-- An old-format blob: the four optional fields are absent, but so is the
required `feature_names` field. -/
def blobOld : BlobData :=
  { model_flowrate := some (fun x => x)
    model_pressure := some (fun x => x + 1)
    model_temperature := some (fun x => 2 * x)
    classifier_model := none
    scaler_regression := none
    scaler_classification := none
    label_encoder := some ["Pump"]
    feature_names := none
    training_history := none
    is_trained := some true }

/-- The path of the old-format blob. -/
def pOld : List String := ["ml_models", "model_user_2.pkl"]

/-- A filesystem holding only the old-format blob. -/
def fsOld : FS := { dirs := [["ml_models"]], files := [(pOld, blobOld)] }

/-- The path of a complete saved bundle. -/
def pFull : List String := ["ml_models", "model_user_3.pkl"]

/-- A filesystem holding one complete saved bundle. -/
def fsFull : FS := { dirs := [["ml_models"]], files := [(pFull, encode_bundle bundle0)] }

/-- Two rows, one of each class, with a constant Flowrate column: cleaning
drops every row and the subsequent 80/20 split of zero samples raises. -/
def dfOneEach : List RawRow :=
  [⟨"Pump", some 7, some 1, some 10⟩, ⟨"Valve", some 7, some 2, some 20⟩]

/-- Four clean rows, two per class. -/
def dfStrat4 : List RawRow :=
  [⟨"Pump", some 1, some 10, some 100⟩, ⟨"Pump", some 2, some 20, some 200⟩,
   ⟨"Valve", some 3, some 30, some 300⟩, ⟨"Valve", some 4, some 40, some 400⟩]

/-- Six fully-populated rows with distinct values in every column: all
survive cleaning, and the 80/20 split gives a 2-sample test set, large
enough for a defined R². -/
def dfSix : List RawRow :=
  [⟨"Pump", some 1, some 10, some 100⟩, ⟨"Pump", some 2, some 20, some 200⟩,
   ⟨"Valve", some 3, some 30, some 300⟩, ⟨"Valve", some 4, some 40, some 400⟩,
   ⟨"Mixer", some 5, some 50, some 500⟩, ⟨"Mixer", some 6, some 60, some 600⟩]

/-! ## Helper lemmas -/

theorem sum_map_sub (xs : List ℚ) (c : ℚ) :
    (xs.map (fun y => y - c)).sum = xs.sum - xs.length * c := by
  induction xs with
  | nil => simp
  | cons a t ih =>
    simp only [List.map_cons, List.sum_cons, List.length_cons, ih]
    push_cast
    ring

theorem sq_sum_nonneg (l : List ℚ) : 0 ≤ (l.map (fun x => x ^ 2)).sum := by
  apply List.sum_nonneg
  intro x hx
  obtain ⟨y, _, rfl⟩ := List.mem_map.1 hx
  positivity

theorem sq_step (a s q n : ℚ) (hn : 0 ≤ n) (hq : 0 ≤ q) (h : s ^ 2 ≤ n * q) :
    (a + s) ^ 2 ≤ (n + 1) * (a ^ 2 + q) := by
  rcases eq_or_lt_of_le hn with hn0 | hn0
  · have hs : s = 0 := by nlinarith [sq_nonneg s]
    subst hs
    nlinarith
  · have h1 : 0 ≤ n * q - s ^ 2 := by linarith
    have h2 : 0 ≤ (n * a - s) ^ 2 := sq_nonneg _
    have h3 : 0 ≤ (n + 1) * (n * q - s ^ 2) := mul_nonneg (by linarith) h1
    have h4 : 0 ≤ n * ((n + 1) * (a ^ 2 + q) - (a + s) ^ 2) := by
      have key : n * ((n + 1) * (a ^ 2 + q) - (a + s) ^ 2)
          = (n * a - s) ^ 2 + (n + 1) * (n * q - s ^ 2) := by ring
      rw [key]
      exact add_nonneg h2 h3
    nlinarith

/-- Cauchy-Schwarz for lists: `(Σ xᵢ)² ≤ n · Σ xᵢ²`. -/
theorem sum_sq_le (l : List ℚ) :
    l.sum ^ 2 ≤ l.length * (l.map (fun x => x ^ 2)).sum := by
  induction l with
  | nil => simp
  | cons a t ih =>
    simp only [List.sum_cons, List.map_cons, List.length_cons]
    push_cast
    exact sq_step a t.sum _ _ (by positivity) (sq_sum_nonneg t) ih

/-- A single squared deviation from the mean is at most `(n-1)/n` of the
total squared deviation: `n·(x-μ)² ≤ (n-1)·Σ(y-μ)²`. -/
theorem dev_sq_le (xs : List ℚ) (x : ℚ) (hx : x ∈ xs) :
    (xs.length : ℚ) * (x - listMean xs) ^ 2
      ≤ ((xs.length : ℚ) - 1) * (xs.map (fun y => (y - listMean xs) ^ 2)).sum := by
  obtain ⟨l₁, l₂, rfl⟩ := List.append_of_mem hx
  set L := l₁ ++ x :: l₂ with hL
  set μ := listMean L with hμ
  have hlen : L.length = l₁.length + l₂.length + 1 := by simp [hL]; omega
  have hn : (0 : ℚ) < L.length := by
    rw [hlen]; push_cast; positivity
  have hzero : (L.map (fun y => y - μ)).sum = 0 := by
    rw [sum_map_sub, hμ, listMean]
    field_simp
  have hsplit : (L.map (fun y => y - μ)).sum
      = (l₁.map (fun y => y - μ)).sum + (x - μ) + (l₂.map (fun y => y - μ)).sum := by
    simp [hL]
    try ring
  have hrest : ((l₁ ++ l₂).map (fun y => y - μ)).sum = -(x - μ) := by
    have := hzero
    rw [hsplit] at this
    simp [List.map_append, List.sum_append]
    linarith
  have hcs := sum_sq_le ((l₁ ++ l₂).map (fun y => y - μ))
  rw [hrest, List.length_map, List.map_map] at hcs
  have hrlen : ((l₁ ++ l₂).length : ℚ) = (L.length : ℚ) - 1 := by
    rw [List.length_append, hlen]; push_cast; ring
  rw [hrlen] at hcs
  have hsq : (L.map (fun y => (y - μ) ^ 2)).sum
      = ((l₁ ++ l₂).map (fun y => (y - μ) ^ 2)).sum + (x - μ) ^ 2 := by
    simp [hL, List.map_append, List.sum_append]
    ring
  have hcomp : ((l₁ ++ l₂).map ((fun x => x ^ 2) ∘ fun y => y - μ)).sum
      = ((l₁ ++ l₂).map (fun y => (y - μ) ^ 2)).sum := by
    congr 1
  rw [hcomp] at hcs
  have hfin : (-(x - μ)) ^ 2 = (x - μ) ^ 2 := by ring
  rw [hfin] at hcs
  rw [hsq]
  nlinarith [hcs, sq_nonneg (x - μ), hn]

/-- On a column of at most 9 values with positive variance, every absolute
z-score is strictly below 3: `(x-μ)² < 9·v`. -/
theorem dev_sq_lt_9var (xs : List ℚ) (x : ℚ) (hx : x ∈ xs) (h9 : xs.length ≤ 9)
    (hv : 0 < listVar xs) : (x - listMean xs) ^ 2 < 9 * listVar xs := by
  have hne : xs ≠ [] := List.ne_nil_of_mem hx
  have hn0 : 0 < xs.length := List.length_pos.mpr hne
  have hn : (1 : ℚ) ≤ (xs.length : ℚ) := by exact_mod_cast hn0
  have h9q : (xs.length : ℚ) ≤ 9 := by exact_mod_cast h9
  have hS : (xs.map (fun y => (y - listMean xs) ^ 2)).sum
      = (xs.length : ℚ) * listVar xs := by
    rw [listVar]
    field_simp
  have h := dev_sq_le xs x hx
  rw [hS] at h
  have hn' : (0 : ℚ) < (xs.length : ℚ) := by linarith
  have hD : (x - listMean xs) ^ 2 ≤ ((xs.length : ℚ) - 1) * listVar xs := by
    by_contra hcon
    push_neg at hcon
    have hmul := mul_lt_mul_of_pos_left hcon hn'
    nlinarith [h]
  nlinarith [hD, hv, h9q]

theorem allSome_eq_map (col : List (Option ℚ)) (xs : List ℚ)
    (h : allSome col = some xs) : col = xs.map some := by
  induction col generalizing xs with
  | nil =>
    simp [allSome] at h
    simp [← h]
  | cons o t ih =>
    cases o with
    | none => simp [allSome] at h
    | some x =>
      cases ht : allSome t with
      | none => rw [allSome, ht] at h; simp at h
      | some ys =>
        rw [allSome, ht] at h
        simp at h
        rw [← h, List.map_cons, ih ys ht]

theorem col_ok_elim (col : List (Option ℚ)) (h : col_ok col = true) :
    ∃ xs, allSome col = some xs ∧ 0 < listVar xs ∧
      colStats col = some (listMean xs, listVar xs) ∧ col = xs.map some := by
  unfold col_ok colStats at h
  cases ha : allSome col with
  | none => rw [ha] at h; simp at h
  | some xs =>
    rw [ha] at h
    simp at h
    refine ⟨xs, rfl, h, ?_, allSome_eq_map col xs ha⟩
    unfold colStats
    rw [ha]

/-- Every cell of a fully-populated positive-variance column of at most 9
rows passes the z-score filter. -/
theorem rowKeep_true_small (col : List (Option ℚ)) (o : Option ℚ)
    (h : col_ok col = true) (h9 : col.length ≤ 9) (ho : o ∈ col) :
    rowKeep (colStats col) o = true := by
  obtain ⟨xs, _, hv, hstats, hcol⟩ := col_ok_elim col h
  rw [hstats]
  rw [hcol] at ho h9
  obtain ⟨x, hxmem, rfl⟩ := List.mem_map.1 ho
  rw [List.length_map] at h9
  unfold rowKeep
  simp only [decide_eq_true_eq]
  exact ⟨hv, dev_sq_lt_9var xs x hxmem h9 hv⟩

theorem impute_of_no_missing (df : List RawRow) (h : no_missing df = true) :
    impute df = df := by
  unfold impute
  rw [show df.map (fun r =>
      ({ eqType := r.eqType,
         flowrate := fillVal (median (df.filterMap (·.flowrate))) r.flowrate,
         pressure := fillVal (median (df.filterMap (·.pressure))) r.pressure,
         temperature := fillVal (median (df.filterMap (·.temperature))) r.temperature } : RawRow))
      = df.map id from ?_, List.map_id]
  apply List.map_congr_left
  intro r hr
  unfold no_missing at h
  rw [List.all_eq_true] at h
  have hsome := h r hr
  rcases r with ⟨ty, fl, pr, te⟩
  simp only [Bool.and_eq_true, Option.isSome_iff_exists] at hsome
  obtain ⟨⟨⟨a, ha⟩, ⟨b, hb⟩⟩, ⟨c, hc⟩⟩ := hsome
  subst ha hb hc
  simp [fillVal]

theorem impute_length (df : List RawRow) : (impute df).length = df.length := by
  unfold impute
  simp

theorem clean_data_of_no_missing (df : List RawRow) (h : no_missing df = true) :
    clean_data df = df.filter (fun r =>
      rowKeep (colStats (df.map (·.flowrate))) r.flowrate &&
      rowKeep (colStats (df.map (·.pressure))) r.pressure &&
      rowKeep (colStats (df.map (·.temperature))) r.temperature) := by
  unfold clean_data
  rw [impute_of_no_missing df h]

/-! ## Claim theorems -/

/-- Claim C1 (counterexample): `dfConstPair` has 2 rows (also after median
imputation, which changes nothing here), i.e. at most 5, yet `clean_data`
does not return all rows: it returns no rows at all, because each constant
column makes every z-score NaN (`0/0`) and `NaN < 3` is false.  The
z-score step is not skipped for small datasets. -/
theorem clean_data_small_counterexample :
    dfConstPair.length ≤ 5 ∧ impute dfConstPair = dfConstPair ∧
      clean_data dfConstPair = [] ∧ dfConstPair ≠ [] := by
  refine ⟨by decide, ?_, ?_, by decide⟩
  · simp [impute, dfConstPair, median, fillVal, allSome, List.insertionSort,
      List.orderedInsert]
  · simp [clean_data, dfConstPair, impute, median, fillVal, allSome, listMean,
      listVar, colStats, rowKeep, List.insertionSort, List.orderedInsert]

/-- Claim C1 (amended): `clean_data` never skips the z-score step, but
whenever every imputed numeric column is fully populated with strictly
positive variance, a dataset of at most 5 rows is returned in full: with
`n ≤ 5` (indeed any `n ≤ 9`) the largest possible absolute z-score,
`(n-1)/√n`, is below 3, so the filter cannot drop any row.  (When some
column is constant or still missing a value, all rows are dropped instead
— see the counterexample.) -/
theorem clean_data_small_keeps_all (df : List RawRow)
    (h5 : df.length ≤ 5)
    (hf : col_ok ((impute df).map (·.flowrate)) = true)
    (hp : col_ok ((impute df).map (·.pressure)) = true)
    (ht : col_ok ((impute df).map (·.temperature)) = true) :
    clean_data df = impute df := by
  have h9 : ∀ f : RawRow → Option ℚ, ((impute df).map f).length ≤ 9 := by
    intro f
    rw [List.length_map, impute_length]
    omega
  unfold clean_data
  apply List.filter_eq_self.mpr
  intro r hr
  rw [Bool.and_eq_true, Bool.and_eq_true]
  exact ⟨⟨rowKeep_true_small _ _ hf (h9 _) (List.mem_map_of_mem _ hr),
          rowKeep_true_small _ _ hp (h9 _) (List.mem_map_of_mem _ hr)⟩,
         rowKeep_true_small _ _ ht (h9 _) (List.mem_map_of_mem _ hr)⟩

/-- Claim C1 (witness): the amended theorem applied to a concrete 3-row
dataset with non-constant columns. -/
theorem clean_data_small_keeps_all_witness :
    clean_data dfSmall3 = impute dfSmall3 :=
  clean_data_small_keeps_all dfSmall3 (by decide)
    (by simp [col_ok, colStats, allSome, listMean, listVar, dfSmall3, impute,
          median, fillVal, List.insertionSort, List.orderedInsert]
        norm_num)
    (by simp [col_ok, colStats, allSome, listMean, listVar, dfSmall3, impute,
          median, fillVal, List.insertionSort, List.orderedInsert]
        norm_num)
    (by simp [col_ok, colStats, allSome, listMean, listVar, dfSmall3, impute,
          median, fillVal, List.insertionSort, List.orderedInsert]
        norm_num)

set_option maxHeartbeats 1600000 in
/-- Claim C8 (counterexample): two datasets with no missing values and no
cell whose absolute z-score exceeds 3, on which `clean_data` nevertheless
changes the dataset.  `dfConstCol` has a constant column, so its z-scores
are NaN (not "exceeding 3", but also not `< 3`) and every row is dropped.
`dfZ3` has one cell whose z-score is exactly 3; the code keeps only
strictly `|z| < 3`, so that row is dropped even though no z-score exceeds
3. -/
theorem clean_data_idempotent_counterexample :
    (no_missing dfConstCol = true ∧ some_z_exceeds dfConstCol = false ∧
      clean_data dfConstCol ≠ dfConstCol) ∧
    (no_missing dfZ3 = true ∧ some_z_exceeds dfZ3 = false ∧
      clean_data dfZ3 ≠ dfZ3) := by
  refine ⟨⟨by decide, ?_, ?_⟩, ⟨by decide, ?_, ?_⟩⟩
  · simp [some_z_exceeds, z_gt_3, colStats, allSome, listMean, listVar,
      dfConstCol]
    norm_num
  · rw [clean_data_of_no_missing dfConstCol (by decide)]
    simp [dfConstCol, colStats, allSome, listMean, listVar, rowKeep]
  · simp [some_z_exceeds, z_gt_3, colStats, allSome, listMean, listVar, dfZ3]
    norm_num
  · rw [clean_data_of_no_missing dfZ3 (by decide)]
    simp [dfZ3, colStats, allSome, listMean, listVar, rowKeep]
    norm_num

/-- Claim C8 (amended): `clean_data` is the identity on a dataset with no
missing values whose columns all have positive variance and in which every
cell's absolute z-score is strictly below 3.  (The claim's original
hypothesis — merely that no z-score *exceeds* 3 — is not enough: a
constant column yields NaN z-scores and loses every row, and a z-score
exactly equal to 3 is also dropped, as the counterexample shows.) -/
theorem clean_data_idempotent (df : List RawRow)
    (hm : no_missing df = true) (ho : no_outliers df = true) :
    clean_data df = df := by
  have himp := impute_of_no_missing df hm
  unfold clean_data
  rw [himp]
  apply List.filter_eq_self.mpr
  intro r hr
  unfold no_outliers at ho
  rw [List.all_eq_true] at ho
  exact ho r hr

/-- Claim C8 (witness): the amended idempotence theorem applied to a
concrete already-clean 3-row dataset. -/
theorem clean_data_idempotent_witness : clean_data dfSmall3 = dfSmall3 :=
  clean_data_idempotent dfSmall3 (by decide)
    (by simp [no_outliers, rowKeep, colStats, allSome, listMean, listVar,
          dfSmall3]
        norm_num)

/-- Invariant of the best-model selection loop, by induction over the
remaining candidates: starting from a current best `b`, the loop returns a
winner scoring at least `b` and at least every remaining candidate, and
the winner is either `b` itself or a strictly better candidate that beats
everything enumerated before it. -/
theorem foldl_stepBest (cs : List (String × ℚ)) (b : String × ℚ) :
    ∃ w, cs.foldl stepBest (some b) = some w ∧ b.2 ≤ w.2 ∧
      (∀ c ∈ cs, c.2 ≤ w.2) ∧
      (w = b ∨ (b.2 < w.2 ∧ ∃ l₁ l₂, cs = l₁ ++ w :: l₂ ∧ ∀ c ∈ l₁, c.2 < w.2)) := by
  induction cs generalizing b with
  | nil => exact ⟨b, rfl, le_refl _, by simp, Or.inl rfl⟩
  | cons c t ih =>
    by_cases hc : b.2 < c.2
    · obtain ⟨w, hw, hcw, hall, hdisj⟩ := ih c
      refine ⟨w, ?_, by linarith, ?_, ?_⟩
      · rw [List.foldl_cons]
        rw [show stepBest (some b) c = some c from by simp [stepBest, hc]]
        exact hw
      · intro d hd
        rcases List.mem_cons.1 hd with rfl | hdt
        · exact hcw
        · exact hall d hdt
      · right
        refine ⟨by linarith, ?_⟩
        rcases hdisj with rfl | ⟨hlt, l₁, l₂, hsplit, hfirst⟩
        · exact ⟨[], t, rfl, by simp⟩
        · refine ⟨c :: l₁, l₂, by rw [hsplit]; rfl, ?_⟩
          intro d hd
          rcases List.mem_cons.1 hd with rfl | hdl
          · linarith
          · exact hfirst d hdl
    · obtain ⟨w, hw, hbw, hall, hdisj⟩ := ih b
      refine ⟨w, ?_, hbw, ?_, ?_⟩
      · rw [List.foldl_cons]
        rw [show stepBest (some b) c = some b from by simp [stepBest, hc]]
        exact hw
      · intro d hd
        rcases List.mem_cons.1 hd with rfl | hdt
        · push_neg at hc
          linarith
        · exact hall d hdt
      · rcases hdisj with rfl | ⟨hlt, l₁, l₂, hsplit, hfirst⟩
        · exact Or.inl rfl
        · refine Or.inr ⟨hlt, c :: l₁, l₂, by rw [hsplit]; rfl, ?_⟩
          intro d hd
          rcases List.mem_cons.1 hd with rfl | hdl
          · push_neg at hc
            linarith
          · exact hfirst d hdl

/-- Claim C2: for any R² scores of the three candidates (random forest,
gradient boosting, linear regression — evaluated on the same target and
test split), the selection loop of `train_regression_models` retains a
fitted candidate whose R² is greater than or equal to that of every
candidate, and the retained one is the earliest candidate in iteration
order attaining that score: every candidate listed before it scores
strictly less (a tie can therefore never displace an earlier winner). -/
theorem train_regression_selection (r2_rf r2_gb r2_lr : ℚ) :
    ∃ w, selectBest (regression_candidates r2_rf r2_gb r2_lr) = some w ∧
      (∀ c ∈ regression_candidates r2_rf r2_gb r2_lr, c.2 ≤ w.2) ∧
      ∃ l₁ l₂, regression_candidates r2_rf r2_gb r2_lr = l₁ ++ w :: l₂ ∧
        ∀ c ∈ l₁, c.2 < w.2 := by
  have hsel : selectBest (regression_candidates r2_rf r2_gb r2_lr)
      = [("Gradient Boosting", r2_gb), ("Linear Regression", r2_lr)].foldl
          stepBest (some ("Random Forest", r2_rf)) := by
    rfl
  obtain ⟨w, hw, hbw, hall, hdisj⟩ :=
    foldl_stepBest [("Gradient Boosting", r2_gb), ("Linear Regression", r2_lr)]
      ("Random Forest", r2_rf)
  refine ⟨w, hsel.trans hw, ?_, ?_⟩
  · intro c hc
    rcases List.mem_cons.1 hc with rfl | hct
    · exact hbw
    · exact hall c hct
  · rcases hdisj with rfl | ⟨hlt, l₁, l₂, hsplit, hfirst⟩
    · exact ⟨[], [("Gradient Boosting", r2_gb), ("Linear Regression", r2_lr)],
        rfl, by simp⟩
    · refine ⟨("Random Forest", r2_rf) :: l₁, l₂, ?_, ?_⟩
      · rw [regression_candidates, hsplit]; rfl
      · intro c hc
        rcases List.mem_cons.1 hc with rfl | hcl
        · exact hlt
        · exact hfirst c hcl

/-- Claim C2 (witness): the selection invariant instantiated at concrete
tied scores: with R² scores 1, 2, 2 the retained candidate is the
gradient-boosting one (the earlier of the two tied candidates). -/
theorem train_regression_selection_witness :
    ∃ w, selectBest (regression_candidates 1 2 2) = some w ∧
      (∀ c ∈ regression_candidates 1 2 2, c.2 ≤ w.2) ∧
      ∃ l₁ l₂, regression_candidates 1 2 2 = l₁ ++ w :: l₂ ∧
        ∀ c ∈ l₁, c.2 < w.2 :=
  train_regression_selection 1 2 2

/-- Claim C3: on any trained bundle, predicting for an equipment type that
is not among the encoder classes does not fail: the encoder fallback uses
code 0, and the result carries the three model outputs at the scaled code
0, each rounded to 2 decimal places. -/
theorem predict_unseen_fallback (b : ModelBundle) (lbl : String)
    (htr : b.is_trained = true) (hun : lbl ∉ b.label_encoder) :
    predict b lbl = .ok
      { equipment_type := lbl
        predicted_flowrate := round2 (b.model_flowrate (b.scaler_regression.transform 0))
        predicted_pressure := round2 (b.model_pressure (b.scaler_regression.transform 0))
        predicted_temperature := round2 (b.model_temperature (b.scaler_regression.transform 0)) } := by
  have hidx : b.label_encoder.findIdx? (· == lbl) = none := by
    rw [List.findIdx?_eq_none_iff]
    intro x hx
    simp only [beq_eq_false_iff_ne, ne_eq]
    rintro rfl
    exact hun hx
  unfold predict
  rw [htr, hidx]
  simp

/-- Claim C3 (witness): `bundle0` is trained on `{"Pump","Valve"}` only;
predicting for `"Reactor"` succeeds via the code-0 fallback. -/
theorem predict_unseen_fallback_witness :
    predict bundle0 "Reactor" = .ok
      { equipment_type := "Reactor"
        predicted_flowrate := round2 (bundle0.model_flowrate (bundle0.scaler_regression.transform 0))
        predicted_pressure := round2 (bundle0.model_pressure (bundle0.scaler_regression.transform 0))
        predicted_temperature := round2 (bundle0.model_temperature (bundle0.scaler_regression.transform 0)) } :=
  predict_unseen_fallback bundle0 "Reactor" rfl (by decide)

/-- Claim C10: `save_model` on a bundle whose trained flag is false fails
with the not-trained error, regardless of the filesystem and target path,
and therefore writes nothing. -/
theorem save_model_untrained (b : ModelBundle) (fs : FS) (p : List String)
    (h : b.is_trained = false) :
    save_model b fs p = .error "Model not trained yet" := by
  unfold save_model
  rw [h]
  simp

/-- Claim C10 (witness). -/
theorem save_model_untrained_witness :
    save_model bundleUntrained fsEmpty ["model.pkl"] = .error "Model not trained yet" :=
  save_model_untrained bundleUntrained fsEmpty ["model.pkl"] rfl

/-- Claim C9 (counterexample): `save_model` does not create missing parent
directories.  With a trained bundle and a path under the not-yet-existing
`ml_models` directory, it fails instead of writing (in the source, the
`os.makedirs` call lives in views.py, not in `save_model`). -/
theorem save_model_counterexample :
    bundle0.is_trained = true ∧
    save_model bundle0 fsEmpty ["ml_models", "model_user_1.pkl"] =
      .error "FileNotFoundError: no such directory" := by
  refine ⟨rfl, ?_⟩
  simp [save_model, bundle0, fsEmpty, FS.hasDir]

/-- Claim C9 (amended): for a trained bundle and a target path whose parent
directory already exists (the callers in views.py create it with
`os.makedirs` beforehand), `save_model` writes the entire bundle — every
field, via `encode_bundle` — as a single blob at that path, and creates no
directories itself. -/
theorem save_model_writes_bundle (b : ModelBundle) (fs : FS) (p : List String)
    (htr : b.is_trained = true) (hdir : fs.hasDir p.dropLast = true) :
    ∃ fs', save_model b fs p = .ok fs' ∧ fs'.dirs = fs.dirs ∧
      fs'.files.lookup p = some (encode_bundle b) := by
  refine ⟨{ dirs := fs.dirs,
            files := (p, encode_bundle b) :: fs.files.filter (fun e => e.1 ≠ p) },
          ?_, rfl, ?_⟩
  · unfold save_model
    rw [htr, hdir]
    simp
  · simp

/-- Claim C9 (witness). -/
theorem save_model_writes_bundle_witness :
    ∃ fs', save_model bundle0 fsWithDir ["ml_models", "model_user_7.pkl"] = .ok fs' ∧
      fs'.dirs = fsWithDir.dirs ∧
      fs'.files.lookup ["ml_models", "model_user_7.pkl"] = some (encode_bundle bundle0) :=
  save_model_writes_bundle bundle0 fsWithDir ["ml_models", "model_user_7.pkl"] rfl (by decide)

/-- Claim C5 (counterexample): the forward-compatible defaulting does not
cover every field.  `blobOld` exists on disk but lacks `feature_names`,
one of the fields `load_model` reads with a bare `[]` access; the load
fails with a `KeyError` instead of substituting a default. -/
theorem load_model_counterexample :
    (fsOld.files.lookup pOld).isSome = true ∧
    load_model fsOld pOld = .error "KeyError: required bundle field missing" := by
  refine ⟨rfl, ?_⟩
  simp [load_model, fsOld, pOld, blobOld]

/-- Claim C5 (amended): `load_model` fails with a not-found error when the
path does not exist; otherwise it restores the bundle, substituting
defaults only for the four fields read with `.get` (`classifier_model`,
both scalers, `training_history`); the remaining six fields (the three
regressors, `label_encoder`, `feature_names`, `is_trained`) are required
and their absence fails the load with a `KeyError`. -/
theorem load_model_spec (fs : FS) (p : List String) :
    (fs.files.lookup p = none →
      load_model fs p = .error "FileNotFoundError: model file not found") ∧
    (∀ blob mf mp mt le fn it, fs.files.lookup p = some blob →
      blob.model_flowrate = some mf → blob.model_pressure = some mp →
      blob.model_temperature = some mt → blob.label_encoder = some le →
      blob.feature_names = some fn → blob.is_trained = some it →
      load_model fs p = .ok
        { model_flowrate := mf
          model_pressure := mp
          model_temperature := mt
          classifier_model := blob.classifier_model
          label_encoder := le
          scaler_regression := blob.scaler_regression.getD { mean := 0, scale := 1 }
          scaler_classification := blob.scaler_classification.getD { mean := 0, scale := 1 }
          feature_names := fn
          training_history := blob.training_history.getD []
          is_trained := it }) := by
  constructor
  · intro h
    unfold load_model
    rw [h]
  · intro blob mf mp mt le fn it h h1 h2 h3 h4 h5 h6
    unfold load_model
    rw [h]
    simp [h1, h2, h3, h4, h5, h6]

/-- Claim C5 (witness): both branches of the load specification at
concrete inputs — a missing path errors, a complete stored bundle is fully
restored with the optional-field defaults applied. -/
theorem load_model_spec_witness :
    load_model fsFull ["absent.pkl"] = .error "FileNotFoundError: model file not found" ∧
    load_model fsFull pFull = .ok
      { model_flowrate := bundle0.model_flowrate
        model_pressure := bundle0.model_pressure
        model_temperature := bundle0.model_temperature
        classifier_model := (encode_bundle bundle0).classifier_model
        label_encoder := bundle0.label_encoder
        scaler_regression := (encode_bundle bundle0).scaler_regression.getD { mean := 0, scale := 1 }
        scaler_classification := (encode_bundle bundle0).scaler_classification.getD { mean := 0, scale := 1 }
        feature_names := bundle0.feature_names
        training_history := (encode_bundle bundle0).training_history.getD []
        is_trained := bundle0.is_trained } :=
  ⟨(load_model_spec fsFull ["absent.pkl"]).1 rfl,
   (load_model_spec fsFull pFull).2 (encode_bundle bundle0)
     bundle0.model_flowrate bundle0.model_pressure bundle0.model_temperature
     bundle0.label_encoder bundle0.feature_names bundle0.is_trained
     rfl rfl rfl rfl rfl rfl rfl⟩

/-- Claim C4: when cleaning removes every row, `train_regression_models`
aborts with the (insufficient-data) `ValueError` that sklearn raises while
validating the 80/20 split of zero samples — before any model is fit; no
metrics and no fitted estimators are produced. -/
theorem train_regression_aborts_on_all_outliers (df : List RawRow)
    (_hne : df ≠ []) (h : clean_data df = []) :
    train_regression_models df =
      .error "ValueError: the resulting train set will be empty" := by
  unfold train_regression_models train_test_split_sizes
  rw [h]
  simp [test_count]

/-- Claim C4 (witness): the constant two-row dataset loses all rows to the
z-score filter, and training aborts. -/
theorem train_regression_aborts_witness :
    train_regression_models dfConstPair =
      .error "ValueError: the resulting train set will be empty" :=
  train_regression_aborts_on_all_outliers dfConstPair (by decide)
    (by rw [clean_data_of_no_missing dfConstPair (by decide)]
        simp [dfConstPair, colStats, allSome, listMean, listVar, rowKeep])

/-- Claim C7 (counterexample): `dfSmall3` cleans to 3 rows, so `N ≥ 2`
holds, but the 80/20 split leaves a single test sample: `r2_score` on one
sample is NaN, `nan > -np.inf` is false for all three candidates, no model
is retained, and line 178 raises `AttributeError` — no sample counts are
recorded at all.  The same happens for every cleaned size 2 to 5. -/
theorem split_size_invariant_counterexample :
    2 ≤ (clean_data dfSmall3).length ∧
    train_regression_models dfSmall3 =
      .error "AttributeError: NoneType object has no attribute predict" := by
  have hcl : clean_data dfSmall3 = dfSmall3 := by
    rw [clean_data_of_no_missing dfSmall3 (by decide)]
    simp [dfSmall3, colStats, allSome, listMean, listVar, rowKeep]
    norm_num
  refine ⟨by rw [hcl]; decide, ?_⟩
  simp only [train_regression_models, hcl]
  rfl

/-- Claim C7 (amended): for a cleaned dataset of `N ≥ 6` rows — the sizes
at which the 80/20 test split holds at least 2 samples, so every R² is
finite and a model is retained — regression training succeeds and its
recorded sample counts satisfy `training_samples + test_samples = N`,
`total_samples = N`, and the test count is within one of
`round(0.2 * N)` (the implementation takes `ceil(0.2 * N)`, which differs
from rounding by at most one).  For cleaned sizes 2 to 5 the call instead
dies with an `AttributeError` before recording anything, because the
1-sample test split makes every R² NaN — see the counterexample. -/
theorem split_size_invariant (df : List RawRow)
    (h : 6 ≤ (clean_data df).length) :
    ∃ m, train_regression_models df = .ok m ∧
      m.training_samples + m.test_samples = (clean_data df).length ∧
      m.total_samples = (clean_data df).length ∧
      ((m.test_samples : ℤ) - round (((clean_data df).length : ℚ) / 5)).natAbs ≤ 1 := by
  set n := (clean_data df).length with hn
  have h1 : ¬(test_count n = 0 ∨ n - test_count n = 0) := by
    unfold test_count
    omega
  have h2 : ¬(test_count n < 2) := by
    unfold test_count
    omega
  refine ⟨⟨n - test_count n, test_count n, n⟩, ?_, ?_, rfl, ?_⟩
  · simp only [train_regression_models, train_test_split_sizes, ← hn, if_neg h1,
      if_neg h2]
  · show n - test_count n + test_count n = n
    unfold test_count
    omega
  · have hr : round ((n : ℚ) / 5) = (2 * (n : ℤ) + 5) / 10 := by
      rw [round_eq]
      have hcast : (n : ℚ) / 5 + 1 / 2 = ((2 * (n : ℤ) + 5 : ℤ) : ℚ) / ((10 : ℕ) : ℚ) := by
        push_cast
        ring
      rw [hcast, Rat.floor_intCast_div_natCast]
      norm_num
    show (((test_count n : ℕ) : ℤ) - round ((n : ℚ) / 5)).natAbs ≤ 1
    rw [hr]
    unfold test_count
    omega

/-- Claim C7 (witness): the amended invariant at a concrete 6-row cleaned
dataset: training records 5 train and 2 test samples (`ceil(0.2·6) = 2`),
and `round(0.2 · 6) = 1` is within one of 2. -/
theorem split_size_invariant_witness :
    ∃ m, train_regression_models dfSix = .ok m ∧
      m.training_samples + m.test_samples = (clean_data dfSix).length ∧
      m.total_samples = (clean_data dfSix).length ∧
      ((m.test_samples : ℤ) - round (((clean_data dfSix).length : ℚ) / 5)).natAbs ≤ 1 :=
  split_size_invariant dfSix
    (by rw [clean_data_of_no_missing dfSix (by decide)]
        simp [dfSix, colStats, allSome, listMean, listVar, rowKeep]
        norm_num)

/-! ## Encoder lemmas for the stratification decision -/

theorem mem_label_fit (L : List String) (c : String) : c ∈ label_fit L ↔ c ∈ L := by
  unfold label_fit
  rw [List.mem_insertionSort, List.mem_dedup]

theorem label_transform_lt (classes : List String) (l : String) (h : l ∈ classes) :
    label_transform classes l < classes.length :=
  List.findIdx_lt_length_of_exists ⟨l, h, by simp⟩

theorem label_transform_get (classes : List String) (l : String) (h : l ∈ classes) :
    classes.get ⟨label_transform classes l, label_transform_lt classes l h⟩ = l := by
  have h2 := @List.findIdx_get _ (fun x => x == l) classes
    (label_transform_lt classes l h)
  exact eq_of_beq h2

theorem label_transform_inj (classes : List String)
    (a b : String) (ha : a ∈ classes) (hb : b ∈ classes)
    (h : label_transform classes a = label_transform classes b) : a = b := by
  have h1 := label_transform_get classes a ha
  have h2 := label_transform_get classes b hb
  have hfin : (⟨label_transform classes a, label_transform_lt classes a ha⟩ : Fin classes.length)
      = ⟨label_transform classes b, label_transform_lt classes b hb⟩ := Fin.ext h
  rw [← h1, ← h2, hfin]

theorem count_map_label (L : List String) (c : String) (hc : c ∈ L) :
    (L.map (label_transform (label_fit L))).count (label_transform (label_fit L) c)
      = L.count c := by
  rw [List.count_eq_countP, List.countP_map, List.count_eq_countP]
  apply List.countP_congr
  intro l hl
  show (label_transform (label_fit L) l == label_transform (label_fit L) c) = true
    ↔ (l == c) = true
  rw [beq_iff_eq, beq_iff_eq]
  constructor
  · intro h
    exact label_transform_inj (label_fit L) l c
      ((mem_label_fit L l).mpr hl) ((mem_label_fit L c).mpr hc) h
  · rintro rfl
    rfl

/-- The stratification guard, expressed on the label list: encoding is
count-preserving, so `can_stratify` on the encoded labels holds iff every
label value occurs at least twice. -/
theorem can_stratify_iff (L : List String) :
    can_stratify (L.map (label_transform (label_fit L))) = true
      ↔ ∀ c ∈ L, 2 ≤ L.count c := by
  unfold can_stratify
  rw [List.all_eq_true]
  constructor
  · intro h c hc
    have h2 := h (label_transform (label_fit L) c) (List.mem_map_of_mem _ hc)
    rw [decide_eq_true_eq, count_map_label L c hc] at h2
    exact h2
  · intro h k hk
    obtain ⟨c, hc, rfl⟩ := List.mem_map.1 hk
    rw [decide_eq_true_eq, count_map_label L c hc]
    exact h c hc

theorem split_sizes_ok (n : Nat) (h : 2 ≤ n) :
    train_test_split_sizes n = .ok (n - test_count n, test_count n) := by
  unfold train_test_split_sizes
  have hne : ¬(test_count n = 0 ∨ n - test_count n = 0) := by
    unfold test_count
    omega
  simp only [if_neg hne]

/-- Claim C6 (counterexample): a dataset in which each class has exactly 1
sample on which `train_classification_model` *does* raise: the constant
Flowrate column makes `clean_data` drop every row, and splitting zero rows
fails before the stratification fallback can help. -/
theorem train_classification_counterexample :
    (dfOneEach.map (·.eqType)).count "Pump" = 1 ∧
    train_classification_model dfOneEach =
      .error "ValueError: the resulting train set will be empty" := by
  have hcl : clean_data dfOneEach = [] := by
    rw [clean_data_of_no_missing dfOneEach (by decide)]
    simp [dfOneEach, colStats, allSome, listMean, listVar, rowKeep]
  refine ⟨by decide, ?_⟩
  simp only [train_classification_model, hcl]
  rfl

/-- Claim C6 (amended): provided at least 2 rows survive cleaning, a
cleaned dataset in which some class has exactly 1 sample makes
`train_classification_model` succeed without stratification (the guard
detects that stratification is impossible and falls back to a plain 80/20
split); and when every class of the cleaned dataset has at least 2
samples, the stratification guard holds, so the split is stratified by
label.  (The original claim fails when cleaning leaves fewer than 2 rows
— see the counterexample.) -/
theorem train_classification_stratification (df : List RawRow)
    (h2 : 2 ≤ (clean_data df).length) :
    ((∃ c ∈ (clean_data df).map (·.eqType),
        ((clean_data df).map (·.eqType)).count c = 1) →
      ∃ r, train_classification_model df = .ok r ∧ r.stratified = false) ∧
    ((∀ c ∈ (clean_data df).map (·.eqType),
        2 ≤ ((clean_data df).map (·.eqType)).count c) →
      can_stratify (((clean_data df).map (·.eqType)).map
        (label_transform (label_fit ((clean_data df).map (·.eqType))))) = true) := by
  constructor
  · rintro ⟨c, hc, hcount⟩
    have hstrat : can_stratify (((clean_data df).map (·.eqType)).map
        (label_transform (label_fit ((clean_data df).map (·.eqType))))) = false := by
      rw [Bool.eq_false_iff]
      intro htrue
      have := (can_stratify_iff ((clean_data df).map (·.eqType))).mp htrue c hc
      omega
    have hlen : ((clean_data df).map (·.eqType)).length = (clean_data df).length :=
      List.length_map _ _
    refine ⟨⟨false, (clean_data df).length - test_count (clean_data df).length,
             test_count (clean_data df).length,
             label_fit ((clean_data df).map (·.eqType))⟩, ?_, rfl⟩
    simp only [train_classification_model, hlen, split_sizes_ok _ h2, hstrat]
    simp
  · intro h
    exact (can_stratify_iff ((clean_data df).map (·.eqType))).mpr h

/-- Claim C6 (witness): `dfSmall3` cleans to itself, its class `"Valve"`
has exactly 1 sample, and classification training succeeds without
stratification; `dfStrat4` has 2 samples per class and satisfies the
stratification guard. -/
theorem train_classification_stratification_witness :
    (∃ r, train_classification_model dfSmall3 = .ok r ∧ r.stratified = false) ∧
    can_stratify (((clean_data dfStrat4).map (·.eqType)).map
      (label_transform (label_fit ((clean_data dfStrat4).map (·.eqType))))) = true := by
  have hcl3 : clean_data dfSmall3 = dfSmall3 := by
    rw [clean_data_of_no_missing dfSmall3 (by decide)]
    simp [dfSmall3, colStats, allSome, listMean, listVar, rowKeep]
    norm_num
  have hcl4 : clean_data dfStrat4 = dfStrat4 := by
    rw [clean_data_of_no_missing dfStrat4 (by decide)]
    simp [dfStrat4, colStats, allSome, listMean, listVar, rowKeep]
    norm_num
  constructor
  · exact (train_classification_stratification dfSmall3 (by rw [hcl3]; decide)).1
      (by rw [hcl3]; exact ⟨"Valve", by decide, by decide⟩)
  · exact (train_classification_stratification dfStrat4 (by rw [hcl4]; decide)).2
      (by rw [hcl4]; decide)

end EquipmentML
